import Mathlib

/-!
Verification of the data-acquisition-and-normalization pipeline of the
Sør-Norge Weather Intelligence Dashboard (src/app.py): the location
resolver `geocode_city`, the forecast fetcher `fetch_daily`, the
per-city orchestration loop, and the map-rendering fallback columns.

The embedding is shallow: HTTP responses are modelled as inductive
values supplied by an environment function, pandas DataFrames as
column-oriented association lists from column name to cell list, and
the Streamlit `@st.cache_data` memoization as explicit state passing of
an association-list cache together with a count of network requests
issued.  Calendar dates are modelled as day ordinals (`Nat`); numeric
weather values as `Rat` (the fetcher only passes them through, so no
floating-point arithmetic occurs in any verified property).
-/

namespace SorlandetWeather

/-- One geocoding candidate, as exposed by the geocoding search endpoint:
name, latitude, longitude, country (src/app.py lines 94-99 read exactly
these four fields from a result item). -/
structure Candidate where
  name : String
  latitude : Rat
  longitude : Rat
  country : String
deriving DecidableEq, Repr

/-- The dictionary `geocode_city` returns on success (src/app.py lines
94-99): canonical name, coordinates, and country of the chosen hit. -/
structure ResolvedPlace where
  name : String
  lat : Rat
  lon : Rat
  country : String
deriving DecidableEq, Repr

/-- Outcome of the geocoding HTTP request in `geocode_city`:
`failure` models a non-success status code (src/app.py line 74,
`r.status_code != 200`); `success results` models a 200 response whose
parsed body yields the candidate list `data.get("results") or []`
(line 78) — a missing `results` field is `success []`. -/
inductive GeoResponse where
  | failure
  | success (results : List Candidate)
deriving DecidableEq, Repr

/-- The hardcoded country allow-list of src/app.py line 85:
`item.get("country") in ("Norway", "Norge")`. -/
def norwegianCountries : List String := ["Norway", "Norge"]

/-- `geocode_city` of src/app.py lines 60-99, as a function of the
geocoding response: a non-200 status returns `None`; an empty (or
missing) result list returns `None`; otherwise the results are filtered
to Norwegian hits, an empty filtrate returns `None`, and the first
Norwegian hit is packaged as the resolved place. -/
def geocode_city (resp : GeoResponse) : Option ResolvedPlace :=
  match resp with
  | .failure => none
  | .success results =>
    if results.isEmpty then none
    else
      match results.filter (fun item => decide (item.country ∈ norwegianCountries)) with
      | [] => none
      | item :: _ =>
        some { name := item.name, lat := item.latitude,
               lon := item.longitude, country := item.country }

/-- Modelled from the spec: the generalized Resolver contract
`resolve(placeName, countryFilter, maxCandidates)` of spec section 4.1.
src/app.py hardcodes the country filter to `("Norway", "Norge")` and has
no empty-filter branch; the empty-filter single-candidate mode belongs
to the repository's script variants that are not under src/, so it is
modelled here from the spec's words: scan candidates in returned order
and return the first whose country is in `countryFilter`; if
`countryFilter` is empty, accept the first candidate unconditionally;
failure, an empty candidate list, or an empty filtrate give `NotFound`
(`none`). -/
def resolve (countryFilter : List String) (resp : GeoResponse) : Option ResolvedPlace :=
  match resp with
  | .failure => none
  | .success results =>
    if results.isEmpty then none
    else
      match (if countryFilter.isEmpty then results
             else results.filter (fun item => decide (item.country ∈ countryFilter))) with
      | [] => none
      | item :: _ =>
        some { name := item.name, lat := item.latitude,
               lon := item.longitude, country := item.country }

/-- Session-scoped memoization table for `geocode_city`, keyed by the
city-name argument, as maintained by `@st.cache_data` (src/app.py line
60).  A `none` value is a cached miss. -/
abbrev GeoCache := List (String × Option ResolvedPlace)

/-- `geocode_city` as invoked through its `@st.cache_data` wrapper
(src/app.py lines 60-61): on a cache hit the stored value is returned
and no network request is issued; on a miss the underlying function
runs (one network request, modelled by consulting the environment
`net`) and its result — including a `none` failure — is stored.
Returns (result, updated cache, number of network requests issued). -/
def cachedGeocodeCity (net : String → GeoResponse) (cache : GeoCache) (city : String) :
    Option ResolvedPlace × GeoCache × Nat :=
  match cache.lookup city with
  | some r => (r, cache, 0)
  | none =>
    let r := geocode_city (net city)
    (r, (city, r) :: cache, 1)

/-- A value held in one cell of a (column of a) table: a calendar date
(day ordinal), a number, or a string (the tagged city name). -/
inductive Cell where
  | date (d : Nat)
  | num (q : Rat)
  | str (s : String)
deriving DecidableEq, Repr

/-- A pandas DataFrame in column-oriented form (also the parsed `daily`
dictionary of the forecast response, which pandas turns into exactly
such a frame of parallel arrays): an ordered association list from
column name to the list of that column's cells, one cell per row. -/
abbrev Table := List (String × List Cell)

/-- Number of rows of a table: the length of its first column (all
columns of a well-formed frame are parallel and equally long). -/
def nrows : Table → Nat
  | [] => 0
  | col :: _ => col.2.length

/-- pandas column assignment `df[k] = v` with a scalar `v`: the scalar
is broadcast down the whole column; an existing column `k` is replaced
in place, a new one is appended after the existing columns. -/
def setColumn (t : Table) (k : String) (v : Cell) : Table :=
  if (t.map Prod.fst).contains k then
    t.map (fun col => if col.1 = k then (col.1, List.replicate (nrows t) v) else col)
  else
    t ++ [(k, List.replicate (nrows t) v)]

/-- The list of daily metric identifiers `fetch_daily` requests
(src/app.py lines 112-116): temperature max/min always; precipitation
sum and precipitation probability iff `need_precip`; maximum wind speed
iff `need_wind`. -/
def daily_vars (need_precip need_wind : Bool) : List String :=
  ["temperature_2m_max", "temperature_2m_min"]
    ++ (if need_precip then ["precipitation_sum", "precipitation_probability_max"] else [])
    ++ (if need_wind then ["wind_speed_10m_max"] else [])

/-- The query parameters of the forecast request (src/app.py lines
119-126).  `daily` is the comma-joined metric list actually sent;
`daily_vars` records the list it was joined from. -/
structure ForecastParams where
  latitude : Rat
  longitude : Rat
  timezone : String
  start_date : Nat
  end_date : Nat
  daily : String
deriving DecidableEq, Repr

/-- Construction of the forecast request parameters by `fetch_daily`
(src/app.py lines 112-126): coordinates as given, the fixed time zone
"Europe/Oslo", the inclusive start and end dates, and the requested
daily metrics joined with commas. -/
def forecastParams (lat lon : Rat) (start endDay : Nat)
    (need_precip need_wind : Bool) : ForecastParams :=
  { latitude := lat, longitude := lon, timezone := "Europe/Oslo",
    start_date := start, end_date := endDay,
    daily := String.intercalate "," (daily_vars need_precip need_wind) }

/-- Outcome of the forecast HTTP request in `fetch_daily`: `failure`
models a non-success status code (src/app.py line 129); `success daily`
models a 200 response whose parsed body yields the dictionary
`js.get("daily") or {}` (line 133) of parallel arrays — a missing
`daily` field is `success []`. -/
inductive FetchResponse where
  | failure
  | success (daily : Table)
deriving DecidableEq, Repr

/-- The column renaming of src/app.py lines 138-147, from the
source field names to the canonical schema. -/
def renameCol (k : String) : String :=
  if k = "time" then "date"
  else if k = "temperature_2m_max" then "tmax"
  else if k = "temperature_2m_min" then "tmin"
  else if k = "precipitation_sum" then "precip_mm"
  else if k = "precipitation_probability_max" then "precip_prob"
  else if k = "wind_speed_10m_max" then "wind_max"
  else k

/-- `fetch_daily` of src/app.py lines 102-149, as a function of the
forecast response: a non-200 status returns `None`; an empty (or
missing) `daily` dictionary returns `None`; otherwise the parallel
arrays become a DataFrame whose columns are renamed to the canonical
schema.  (Line 148 re-parses the date column's entries as calendar
dates; in this embedding the time array already carries `Cell.date`
values, so that step is the identity.) -/
def fetch_daily (resp : FetchResponse) : Option Table :=
  match resp with
  | .failure => none
  | .success daily =>
    if daily.isEmpty then none
    else some (daily.map (fun col => (renameCol col.1, col.2)))

/-- The consecutive calendar days of the inclusive range
`[start, endDay]`, as day ordinals. -/
def dateList (start endDay : Nat) : List Nat :=
  (List.range (endDay + 1 - start)).map (start + ·)

/-- A per-city warning recorded by the orchestration loop, carrying the
original query string: `geocodeFailed city` is the warning of src/app.py
line 161 ("Fant ikke norske koordinater for {city}"), `noData city` the
warning of line 174 ("Ingen data tilgjengelig for {city}"). -/
inductive Warning where
  | geocodeFailed (city : String)
  | noData (city : String)
deriving DecidableEq, Repr

/-- The tagging of a fetched frame with its city's identity
(src/app.py lines 177-179): `df["city"] = geo["name"]`,
`df["lat"] = geo["lat"]`, `df["lon"] = geo["lon"]`. -/
def tagCity (geo : ResolvedPlace) (df : Table) : Table :=
  setColumn (setColumn (setColumn df "city" (.str geo.name)) "lat" (.num geo.lat))
    "lon" (.num geo.lon)

/-- One iteration of the city loop (src/app.py lines 157-180) for one
query: resolve the city (a failure records the line-161 warning and
skips it); fetch the daily frame for the resolved coordinates with the
active feature flags (a `None` or empty frame records the line-174
warning and skips it); otherwise tag the frame with the city identity.
`gnet` and `fnet` are the environments answering the geocoding and
forecast requests. -/
def processCity (gnet : String → GeoResponse) (fnet : ForecastParams → FetchResponse)
    (start endDay : Nat) (show_precip show_wind : Bool) (city : String) :
    Table ⊕ Warning :=
  match geocode_city (gnet city) with
  | none => .inr (.geocodeFailed city)
  | some geo =>
    match fetch_daily (fnet (forecastParams geo.lat geo.lon start endDay show_precip show_wind)) with
    | none => .inr (.noData city)
    | some df =>
      if nrows df = 0 then .inr (.noData city)
      else .inl (tagCity geo df)

/-- The city loop of src/app.py lines 155-180 over the ordered query
list: successful frames are accumulated in `rows` in request order,
warnings in a parallel list, and no failure stops the loop. -/
def processCities (gnet : String → GeoResponse) (fnet : ForecastParams → FetchResponse)
    (start endDay : Nat) (show_precip show_wind : Bool) :
    List String → List Table × List Warning
  | [] => ([], [])
  | city :: rest =>
    let tail := processCities gnet fnet start endDay show_precip show_wind rest
    match processCity gnet fnet start endDay show_precip show_wind city with
    | .inl df => (df :: tail.1, tail.2)
    | .inr w => (tail.1, w :: tail.2)

/-- The frame a city's iteration contributed, if it succeeded. -/
def successTable : Table ⊕ Warning → Option Table
  | .inl df => some df
  | .inr _ => none

/-- The warning a city's iteration recorded, if it failed. -/
def failureWarning : Table ⊕ Warning → Option Warning
  | .inl _ => none
  | .inr w => some w

/-- Row-wise concatenation of two frames of the same schema: each
column of the first is extended with the same-named column of the
second. -/
def appendRows (t1 t2 : Table) : Table :=
  t1.map (fun col => (col.1, col.2 ++ ((t2.lookup col.1).getD [])))

/-- `pd.concat(rows, ignore_index=True)` of src/app.py line 186 over
the accumulated per-city frames, which all share one schema. -/
def concatTables : List Table → Table
  | [] => []
  | [t] => t
  | t :: ts => appendRows t (concatTables ts)

/-- Outcome of one run of the pipeline: `emptyResult` is the terminal
no-data condition of src/app.py lines 182-184 (`st.error` followed by
`st.stop()`, which aborts the script before any chart, map, table or
insight is produced); `rendered data warnings` means execution reached
line 186 and all downstream presentation proceeds from the combined
table `data`. -/
inductive RunResult where
  | emptyResult (warnings : List Warning)
  | rendered (data : Table) (warnings : List Warning)
deriving DecidableEq, Repr

/-- The whole acquisition pipeline (src/app.py lines 155-186): run the
city loop; if no frame was accumulated, stop with the overall no-data
error; otherwise concatenate the frames into the combined table that
the presentation layer consumes. -/
def runPipeline (gnet : String → GeoResponse) (fnet : ForecastParams → FetchResponse)
    (start endDay : Nat) (show_precip show_wind : Bool) (cities : List String) :
    RunResult :=
  let acc := processCities gnet fnet start endDay show_precip show_wind cities
  if acc.1.isEmpty then .emptyResult acc.2
  else .rendered (concatTables acc.1) acc.2

/-- The map-section fallback of src/app.py lines 261-267:
`map_df = data.copy()`, then `map_df["precip_mm"] = 0.0` if the
combined table lacks a `precip_mm` column, and `map_df["wind_max"] =
0.0` if it lacks a `wind_max` column.  The copy is modelled by value
semantics: `data` itself is not touched. -/
def withMapFallback (data : Table) : Table :=
  let map_df := data
  let map_df := if (map_df.map Prod.fst).contains "precip_mm" then map_df
                else setColumn map_df "precip_mm" (.num 0)
  let map_df := if (map_df.map Prod.fst).contains "wind_max" then map_df
                else setColumn map_df "wind_max" (.num 0)
  map_df

/-! ### Concrete geocoding candidates used by witnesses -/

/-- The Mandalay (Myanmar) candidate of the spec's end-to-end scenario:
a same-named foreign hit that the country filter must reject. -/
def mandalayHit : Candidate :=
  { name := "Mandalay", latitude := 21, longitude := 96, country := "Myanmar" }

/-- A Norwegian candidate, as the geocoding endpoint returns it for
"Mandal". -/
def mandalHit : Candidate :=
  { name := "Mandal", latitude := 58, longitude := 7, country := "Norway" }

/-- A geocoding environment in which every request fails. -/
def gnetDown : String → GeoResponse := fun _ => GeoResponse.failure

/-- A geocoding environment that returns the Kristiansand hit for every
query. -/
def gnetKristiansand : String → GeoResponse :=
  fun _ => GeoResponse.success
    [{ name := "Kristiansand", latitude := 58, longitude := 8, country := "Norway" }]

/-- A forecast environment returning one day of temperature data for
every request. -/
def fnetOneDay : ForecastParams → FetchResponse :=
  fun _ => FetchResponse.success
    [("time", [Cell.date 0]),
     ("temperature_2m_max", [Cell.num 10]),
     ("temperature_2m_min", [Cell.num 2])]

/-- A concrete combined table without optional metric columns, as the
run produces it when both optional features are off. -/
def plainTable : Table :=
  [("date", [Cell.date 0]), ("tmax", [Cell.num 10]), ("tmin", [Cell.num 2]),
   ("city", [Cell.str "Kristiansand"]), ("lat", [Cell.num 58]), ("lon", [Cell.num 8])]

/-- A concrete combined table of the default run (precipitation on,
wind off, src/app.py lines 53-54): the precipitation columns are
present and the wind column is absent. -/
def defaultRunTable : Table :=
  [("date", [Cell.date 0]), ("tmax", [Cell.num 10]), ("tmin", [Cell.num 2]),
   ("precip_mm", [Cell.num 1]), ("precip_prob", [Cell.num 40]),
   ("city", [Cell.str "Kristiansand"]), ("lat", [Cell.num 58]), ("lon", [Cell.num 8])]

/-! ### Claims about the Location Resolver -/

/-- C2.  Resolver selection policy: whenever the lookup succeeds and at
least one returned candidate has its country in the configured country
set ("Norway"/"Norge") — i.e. the order-preserving filtrate of the
returned candidates has a first element `item` — `geocode_city` returns
the resolved place built from exactly that first matching candidate's
name, latitude, longitude and country, and that country is a member of
the set. -/
theorem geocode_city_selects_first_norwegian_hit (results : List Candidate)
    (item : Candidate)
    (h : (results.filter (fun i => decide (i.country ∈ norwegianCountries))).head? =
      some item) :
    geocode_city (GeoResponse.success results) =
      some { name := item.name, lat := item.latitude,
             lon := item.longitude, country := item.country } ∧
    item.country ∈ norwegianCountries := by
  cases results with
  | nil => simp at h
  | cons r rs =>
    cases hfil : (r :: rs).filter (fun i => decide (i.country ∈ norwegianCountries)) with
    | nil => rw [hfil] at h; simp at h
    | cons it rest =>
      rw [hfil] at h
      have hit : it = item := by simpa using h
      subst hit
      have hmem : it ∈ (r :: rs).filter (fun i => decide (i.country ∈ norwegianCountries)) := by
        rw [hfil]; exact List.mem_cons_self it rest
      constructor
      · simp only [geocode_city, List.isEmpty_cons, Bool.false_eq_true, if_false]
        rw [hfil]
      · simpa using (List.mem_filter.mp hmem).2

/-- Witness for C2: on the candidate list [Mandalay (Myanmar),
Mandal (Norway)] the resolver returns the Mandal hit, whose country is
in the configured set. -/
theorem geocode_city_selects_first_norwegian_hit_witness :
    geocode_city (GeoResponse.success [mandalayHit, mandalHit]) =
      some { name := mandalHit.name, lat := mandalHit.latitude,
             lon := mandalHit.longitude, country := mandalHit.country } ∧
    mandalHit.country ∈ norwegianCountries :=
  geocode_city_selects_first_norwegian_hit [mandalayHit, mandalHit] mandalHit (by decide)

/-- C6.  Resolver failure behaviour: a non-success response, an empty
candidate list, and a candidate list in which no country passes the
Norwegian filter all make `geocode_city` return `none` — the
distinguishable NotFound outcome; `geocode_city` is a total function of
the response, so no execution of it raises. -/
theorem geocode_city_not_found (results : List Candidate)
    (h : ∀ c ∈ results, c.country ∉ norwegianCountries) :
    geocode_city GeoResponse.failure = none ∧
    geocode_city (GeoResponse.success []) = none ∧
    geocode_city (GeoResponse.success results) = none := by
  refine ⟨rfl, rfl, ?_⟩
  cases results with
  | nil => rfl
  | cons r rs =>
    have hfil : (r :: rs).filter (fun i => decide (i.country ∈ norwegianCountries)) = [] :=
      List.filter_eq_nil_iff.mpr (fun a ha => by simpa using h a ha)
    simp only [geocode_city, List.isEmpty_cons, Bool.false_eq_true, if_false]
    rw [hfil]

/-- Witness for C6: a lookup returning only the Myanmar hit resolves to
`none`. -/
theorem geocode_city_not_found_witness :
    geocode_city GeoResponse.failure = none ∧
    geocode_city (GeoResponse.success []) = none ∧
    geocode_city (GeoResponse.success [mandalayHit]) = none :=
  geocode_city_not_found [mandalayHit] (by decide)

/-- C8.  Empty-filter mode of the spec-modelled `resolve`: with an
empty country filter and a lookup returning at least one candidate, the
first returned candidate is accepted unconditionally and returned as
the resolved place. -/
theorem resolve_empty_filter_takes_first (c : Candidate) (rest : List Candidate) :
    resolve [] (GeoResponse.success (c :: rest)) =
      some { name := c.name, lat := c.latitude,
             lon := c.longitude, country := c.country } := rfl

/-- C9.  Resolver idempotence within a session: calling the memoized
`geocode_city` twice in a row with the same city name yields the same
result both times, the pair of calls issues at most one underlying
network request, and the second call issues none even when the cached
outcome is a `none` miss. -/
theorem cachedGeocodeCity_idempotent (net : String → GeoResponse)
    (cache : GeoCache) (city : String) :
    (cachedGeocodeCity net (cachedGeocodeCity net cache city).2.1 city).1 =
      (cachedGeocodeCity net cache city).1 ∧
    (cachedGeocodeCity net cache city).2.2 +
      (cachedGeocodeCity net (cachedGeocodeCity net cache city).2.1 city).2.2 ≤ 1 ∧
    (cachedGeocodeCity net (cachedGeocodeCity net cache city).2.1 city).2.2 = 0 := by
  cases hl : cache.lookup city with
  | some r => simp [cachedGeocodeCity, hl]
  | none => simp [cachedGeocodeCity, hl, List.lookup]

/-! ### Claims about the Forecast Fetcher -/

/-- C5.  Fetcher request construction: the requested daily metric list
always contains temperature max and min, contains precipitation sum and
precipitation probability exactly when the precipitation flag is set,
contains maximum wind speed exactly when the wind flag is set; and the
request parameters carry exactly the inclusive span `[start, endDay]`
with the fixed time zone "Europe/Oslo" and the comma-joined metric
list. -/
theorem forecastParams_request_construction (lat lon : Rat) (start endDay : Nat)
    (need_precip need_wind : Bool) :
    "temperature_2m_max" ∈ daily_vars need_precip need_wind ∧
    "temperature_2m_min" ∈ daily_vars need_precip need_wind ∧
    ("precipitation_sum" ∈ daily_vars need_precip need_wind ↔ need_precip = true) ∧
    ("precipitation_probability_max" ∈ daily_vars need_precip need_wind ↔
      need_precip = true) ∧
    ("wind_speed_10m_max" ∈ daily_vars need_precip need_wind ↔ need_wind = true) ∧
    (forecastParams lat lon start endDay need_precip need_wind).daily =
      String.intercalate "," (daily_vars need_precip need_wind) ∧
    (forecastParams lat lon start endDay need_precip need_wind).timezone =
      "Europe/Oslo" ∧
    (forecastParams lat lon start endDay need_precip need_wind).start_date = start ∧
    (forecastParams lat lon start endDay need_precip need_wind).end_date = endDay := by
  cases need_precip <;> cases need_wind <;>
    exact ⟨by decide, by decide, by decide, by decide, by decide, rfl, rfl, rfl, rfl⟩

/-- C3.  For every date range with `start ≤ endDay`, and every forecast
response whose time array covers exactly that inclusive span (which is
what the endpoint returns for the requested `start_date`/`end_date`),
`fetch_daily` succeeds and its `date` column is exactly the consecutive
day sequence of the range: its length is the number of calendar days
`endDay - start + 1`, it has no duplicates, each entry is the successor
of the previous one, and a single-day range (`start = endDay`) yields
exactly one record. -/
theorem fetch_daily_covers_range (start endDay : Nat) (rest : Table)
    (h : start ≤ endDay) :
    fetch_daily (FetchResponse.success
        (("time", (dateList start endDay).map Cell.date) :: rest)) =
      some (("date", (dateList start endDay).map Cell.date) ::
        rest.map (fun col => (renameCol col.1, col.2))) ∧
    (("date", (dateList start endDay).map Cell.date) ::
        rest.map (fun col => (renameCol col.1, col.2))).lookup "date" =
      some ((dateList start endDay).map Cell.date) ∧
    (dateList start endDay).length = endDay - start + 1 ∧
    (dateList start endDay).Nodup ∧
    List.Chain' (fun a b => b = a + 1) (dateList start endDay) ∧
    (start = endDay → (dateList start endDay).length = 1) := by
  have hlen : (dateList start endDay).length = endDay - start + 1 := by
    simp [dateList]; omega
  refine ⟨?_, ?_, hlen, ?_, ?_, fun he => by rw [hlen, he]; omega⟩
  · simp only [fetch_daily, List.isEmpty_cons, Bool.false_eq_true, if_false]
    rfl
  · simp [List.lookup]
  · exact List.Nodup.map (fun a b hab => by omega) (List.nodup_range _)
  · have hn : endDay + 1 - start = (endDay - start) + 1 := by omega
    rw [dateList, hn]
    rw [List.chain'_map]
    exact (List.chain'_range_succ _ _).mpr (fun m _ => by omega)

/-- Witness for C3: a single-day range (day 5 to day 5) yields exactly
one record whose date column is that one day. -/
theorem fetch_daily_covers_range_witness :
    fetch_daily (FetchResponse.success
        (("time", (dateList 5 5).map Cell.date) :: [])) =
      some (("date", (dateList 5 5).map Cell.date) ::
        ([] : Table).map (fun col => (renameCol col.1, col.2))) ∧
    (dateList 5 5).length = 5 - 5 + 1 ∧
    (dateList 5 5).length = 1 :=
  ⟨(fetch_daily_covers_range 5 5 [] (by decide)).1,
   (fetch_daily_covers_range 5 5 [] (by decide)).2.2.1,
   (fetch_daily_covers_range 5 5 [] (by decide)).2.2.2.2.2 rfl⟩

/-- C7.  Fetcher failure behaviour: a non-success response and an empty
(or missing) daily dictionary both make `fetch_daily` return `none`;
and for a response carrying exactly the requested parallel arrays, the
call succeeds with every requested metric column present (per the
feature flags) — the result is all-or-nothing, never a partially
filled record. -/
theorem fetch_daily_failure_or_complete (need_precip need_wind : Bool) (daily : Table)
    (hk : daily.map Prod.fst = "time" :: daily_vars need_precip need_wind) :
    fetch_daily FetchResponse.failure = none ∧
    fetch_daily (FetchResponse.success []) = none ∧
    fetch_daily (FetchResponse.success daily) =
      some (daily.map (fun col => (renameCol col.1, col.2))) ∧
    (daily.map (fun col => (renameCol col.1, col.2))).map Prod.fst =
      ("time" :: daily_vars need_precip need_wind).map renameCol ∧
    "date" ∈ (daily.map (fun col => (renameCol col.1, col.2))).map Prod.fst ∧
    "tmax" ∈ (daily.map (fun col => (renameCol col.1, col.2))).map Prod.fst ∧
    "tmin" ∈ (daily.map (fun col => (renameCol col.1, col.2))).map Prod.fst ∧
    (need_precip = true →
      "precip_mm" ∈ (daily.map (fun col => (renameCol col.1, col.2))).map Prod.fst ∧
      "precip_prob" ∈ (daily.map (fun col => (renameCol col.1, col.2))).map Prod.fst) ∧
    (need_wind = true →
      "wind_max" ∈ (daily.map (fun col => (renameCol col.1, col.2))).map Prod.fst) := by
  have hkeys : (daily.map (fun col => (renameCol col.1, col.2))).map Prod.fst =
      ("time" :: daily_vars need_precip need_wind).map renameCol := by
    rw [← hk]
    simp [List.map_map, Function.comp]
  have hne : fetch_daily (FetchResponse.success daily) =
      some (daily.map (fun col => (renameCol col.1, col.2))) := by
    cases daily with
    | nil => simp at hk
    | cons col cols =>
      simp only [fetch_daily, List.isEmpty_cons, Bool.false_eq_true, if_false]
  refine ⟨rfl, rfl, hne, hkeys, ?_, ?_, ?_, ?_, ?_⟩ <;> rw [hkeys] <;>
    cases need_precip <;> cases need_wind <;> decide

/-- Witness for C7: with precipitation on and wind off, a conformant
response yields a frame with the date, temperature and precipitation
columns all present. -/
theorem fetch_daily_failure_or_complete_witness :
    fetch_daily FetchResponse.failure = none ∧
    fetch_daily (FetchResponse.success []) = none ∧
    "precip_mm" ∈ (([("time", []), ("temperature_2m_max", []),
        ("temperature_2m_min", []), ("precipitation_sum", []),
        ("precipitation_probability_max", [])] : Table).map
          (fun col => (renameCol col.1, col.2))).map Prod.fst :=
  ⟨(fetch_daily_failure_or_complete true false
      [("time", []), ("temperature_2m_max", []), ("temperature_2m_min", []),
       ("precipitation_sum", []), ("precipitation_probability_max", [])]
      (by decide)).1,
   (fetch_daily_failure_or_complete true false
      [("time", []), ("temperature_2m_max", []), ("temperature_2m_min", []),
       ("precipitation_sum", []), ("precipitation_probability_max", [])]
      (by decide)).2.1,
   ((fetch_daily_failure_or_complete true false
      [("time", []), ("temperature_2m_max", []), ("temperature_2m_min", []),
       ("precipitation_sum", []), ("precipitation_probability_max", [])]
      (by decide)).2.2.2.2.2.2.2.1 rfl).1⟩

/-! ### Claims about the orchestration loop -/

/-- The city loop's accumulators are exactly the per-city outcomes,
split into successes and failures with order preserved. -/
theorem processCities_characterization (gnet : String → GeoResponse)
    (fnet : ForecastParams → FetchResponse) (start endDay : Nat)
    (show_precip show_wind : Bool) (cities : List String) :
    processCities gnet fnet start endDay show_precip show_wind cities =
      (cities.filterMap
        (fun city => successTable (processCity gnet fnet start endDay show_precip show_wind city)),
       cities.filterMap
        (fun city => failureWarning (processCity gnet fnet start endDay show_precip show_wind city))) := by
  induction cities with
  | nil => rfl
  | cons c cs ih =>
    cases hpc : processCity gnet fnet start endDay show_precip show_wind c with
    | inl df => simp [processCities, hpc, ih, successTable, failureWarning]
    | inr w => simp [processCities, hpc, ih, successTable, failureWarning]

/-- Each query contributes exactly one outcome: a frame or one warning. -/
theorem processCities_total_outcomes (gnet : String → GeoResponse)
    (fnet : ForecastParams → FetchResponse) (start endDay : Nat)
    (show_precip show_wind : Bool) (cities : List String) :
    (processCities gnet fnet start endDay show_precip show_wind cities).1.length +
      (processCities gnet fnet start endDay show_precip show_wind cities).2.length =
      cities.length := by
  induction cities with
  | nil => rfl
  | cons c cs ih =>
    cases hpc : processCity gnet fnet start endDay show_precip show_wind c with
    | inl df => simp only [processCities, hpc, List.length_cons]; omega
    | inr w => simp only [processCities, hpc, List.length_cons]; omega

/-- C1.  Orchestration resilience: the city loop processes the queries
in list order; its accumulated frames are exactly the tagged frames of
the queries that succeeded, in request order, its recorded warnings are
exactly one warning per failed query — each naming that query — in
request order, and every query contributes exactly one of the two, so
no failure ever aborts the processing of subsequent queries. -/
theorem city_loop_resilience (gnet : String → GeoResponse)
    (fnet : ForecastParams → FetchResponse) (start endDay : Nat)
    (show_precip show_wind : Bool) (cities : List String) :
    processCities gnet fnet start endDay show_precip show_wind cities =
      (cities.filterMap
        (fun city => successTable (processCity gnet fnet start endDay show_precip show_wind city)),
       cities.filterMap
        (fun city => failureWarning (processCity gnet fnet start endDay show_precip show_wind city))) ∧
    (processCities gnet fnet start endDay show_precip show_wind cities).1.length +
      (processCities gnet fnet start endDay show_precip show_wind cities).2.length =
      cities.length :=
  ⟨processCities_characterization gnet fnet start endDay show_precip show_wind cities,
   processCities_total_outcomes gnet fnet start endDay show_precip show_wind cities⟩

/-- C4.  EmptyResult is terminal: when every requested query fails, the
run stops in the `emptyResult` state — the overall no-data report,
distinct by construction from the per-place warnings it still carries —
and no combined table reaches the presentation stages; when at least
one query succeeds, the run reaches the `rendered` state and downstream
presentation proceeds from the concatenated table. -/
theorem empty_result_terminal (gnet : String → GeoResponse)
    (fnet : ForecastParams → FetchResponse) (start endDay : Nat)
    (show_precip show_wind : Bool) (cities : List String) :
    ((∀ city ∈ cities,
        successTable (processCity gnet fnet start endDay show_precip show_wind city) = none) →
      runPipeline gnet fnet start endDay show_precip show_wind cities =
        RunResult.emptyResult
          (processCities gnet fnet start endDay show_precip show_wind cities).2) ∧
    ((∃ city ∈ cities, ∃ df,
        successTable (processCity gnet fnet start endDay show_precip show_wind city) = some df) →
      runPipeline gnet fnet start endDay show_precip show_wind cities =
        RunResult.rendered
          (concatTables (processCities gnet fnet start endDay show_precip show_wind cities).1)
          (processCities gnet fnet start endDay show_precip show_wind cities).2) := by
  have hchar := processCities_characterization gnet fnet start endDay show_precip show_wind cities
  constructor
  · intro hall
    have hrows : (processCities gnet fnet start endDay show_precip show_wind cities).1 = [] := by
      rw [hchar]
      exact List.filterMap_eq_nil_iff.mpr hall
    rw [runPipeline, hrows]
    rfl
  · rintro ⟨city, hcity, df, hdf⟩
    have hmem : df ∈ (processCities gnet fnet start endDay show_precip show_wind cities).1 := by
      rw [hchar]
      exact List.mem_filterMap.mpr ⟨city, hcity, hdf⟩
    have hne : (processCities gnet fnet start endDay show_precip show_wind cities).1.isEmpty = false := by
      cases hr : (processCities gnet fnet start endDay show_precip show_wind cities).1 with
      | nil => rw [hr] at hmem; exact absurd hmem (List.not_mem_nil df)
      | cons a l => rfl
    rw [runPipeline, hne]
    rfl

/-- Witness for C4: with the geocoder down the single-query run stops
in the no-data state; with a working geocoder and fetcher it reaches
the rendered state. -/
theorem empty_result_terminal_witness :
    runPipeline gnetDown fnetOneDay 0 6 true false ["Kristiansand"] =
      RunResult.emptyResult
        (processCities gnetDown fnetOneDay 0 6 true false ["Kristiansand"]).2 ∧
    runPipeline gnetKristiansand fnetOneDay 0 6 true false ["Kristiansand"] =
      RunResult.rendered
        (concatTables (processCities gnetKristiansand fnetOneDay 0 6 true false ["Kristiansand"]).1)
        (processCities gnetKristiansand fnetOneDay 0 6 true false ["Kristiansand"]).2 :=
  ⟨(empty_result_terminal gnetDown fnetOneDay 0 6 true false ["Kristiansand"]).1
      (by decide),
   (empty_result_terminal gnetKristiansand fnetOneDay 0 6 true false ["Kristiansand"]).2
      ⟨"Kristiansand", by decide, plainTable, by decide⟩⟩

/-! ### The map-rendering fallback -/

/-- Looking a key up after an appended block skips a prefix that does
not contain the key. -/
theorem lookup_append_of_not_mem (t rest : Table) (k : String)
    (h : k ∉ t.map Prod.fst) : (t ++ rest).lookup k = rest.lookup k := by
  induction t with
  | nil => rfl
  | cons c cs ih =>
    have hk : k ≠ c.1 := by
      intro he
      exact h (by simp [he])
    have hcs : k ∉ cs.map Prod.fst := fun hm => h (by simp [hm])
    simpa [List.lookup, beq_false_of_ne hk] using ih hcs

/-- Looking a key up in an extended table agrees with the prefix when
the key occurs there. -/
theorem lookup_append_of_mem (t rest : Table) (k : String)
    (h : (t.lookup k).isSome) : (t ++ rest).lookup k = t.lookup k := by
  induction t with
  | nil => simp [List.lookup, Option.isSome] at h
  | cons c cs ih =>
    by_cases hk : (k == c.1)
    · simp [List.lookup, hk]
    · have hsome : (cs.lookup k).isSome := by
        simpa [List.lookup, hk] using h
      simpa [List.lookup, hk] using ih hsome

/-- Appending a replicate-`nrows` column does not change the row
count. -/
theorem nrows_append_fallback (t : Table) (k : String) (v : Cell) :
    nrows (t ++ [(k, List.replicate (nrows t) v)]) = nrows t := by
  cases t with
  | nil => simp [nrows]
  | cons c cs => rfl

/-- C10.  Map-rendering fallback: independently per optional metric,
whenever the combined table lacks the `precip_mm` (respectively
`wind_max`) column — its feature was not requested — the map section's
copy carries that column filled with the constant 0.0 for every row,
appended after the original columns; when both are present the copy is
the table itself; every column of the original table keeps its values
in the copy, and the original table is the unchanged `data` the later
sections keep using. -/
theorem map_fallback_zero_fills (data : Table) :
    ("precip_mm" ∉ data.map Prod.fst →
      (withMapFallback data).lookup "precip_mm" =
        some (List.replicate (nrows data) (Cell.num 0))) ∧
    ("wind_max" ∉ data.map Prod.fst →
      (withMapFallback data).lookup "wind_max" =
        some (List.replicate (nrows data) (Cell.num 0))) ∧
    ("precip_mm" ∈ data.map Prod.fst → "wind_max" ∈ data.map Prod.fst →
      withMapFallback data = data) ∧
    ("precip_mm" ∉ data.map Prod.fst → "wind_max" ∈ data.map Prod.fst →
      withMapFallback data =
        data ++ [("precip_mm", List.replicate (nrows data) (Cell.num 0))]) ∧
    ("precip_mm" ∈ data.map Prod.fst → "wind_max" ∉ data.map Prod.fst →
      withMapFallback data =
        data ++ [("wind_max", List.replicate (nrows data) (Cell.num 0))]) ∧
    ("precip_mm" ∉ data.map Prod.fst → "wind_max" ∉ data.map Prod.fst →
      withMapFallback data =
        data ++ [("precip_mm", List.replicate (nrows data) (Cell.num 0)),
                 ("wind_max", List.replicate (nrows data) (Cell.num 0))]) ∧
    ∀ k, (data.lookup k).isSome →
      (withMapFallback data).lookup k = data.lookup k := by
  by_cases hp : "precip_mm" ∈ data.map Prod.fst <;>
    by_cases hw : "wind_max" ∈ data.map Prod.fst
  · -- both optional columns already present: the copy is the table
    have hp1 : ((data.map Prod.fst).contains "precip_mm") = true := by simpa using hp
    have hw1 : ((data.map Prod.fst).contains "wind_max") = true := by simpa using hw
    have heq : withMapFallback data = data := by
      unfold withMapFallback
      simp only []
      rw [hp1]
      simp only [if_true]
      rw [hw1]
      simp only [if_true]
    exact ⟨fun h => absurd hp h, fun h => absurd hw h, fun _ _ => heq,
      fun h _ => absurd hp h, fun _ h => absurd hw h, fun h _ => absurd hp h,
      fun k _ => by rw [heq]⟩
  · -- precipitation present, wind absent: the default run's shape
    have hp1 : ((data.map Prod.fst).contains "precip_mm") = true := by simpa using hp
    have hw1 : ((data.map Prod.fst).contains "wind_max") = false := by simpa using hw
    have heq : withMapFallback data =
        data ++ [("wind_max", List.replicate (nrows data) (Cell.num 0))] := by
      unfold withMapFallback setColumn
      simp only []
      rw [hp1]
      simp only [if_true]
      rw [hw1]
      simp only [Bool.false_eq_true, if_false]
    refine ⟨fun h => absurd hp h, fun _ => ?_, fun _ h => absurd h hw,
      fun h _ => absurd hp h, fun _ _ => heq, fun h _ => absurd hp h, fun k hk => ?_⟩
    · rw [heq, lookup_append_of_not_mem data _ _ hw]
      simp [List.lookup]
    · rw [heq]
      exact lookup_append_of_mem data _ k hk
  · -- precipitation absent, wind present
    have hp1 : ((data.map Prod.fst).contains "precip_mm") = false := by simpa using hp
    have hw2 : (((data ++ [("precip_mm", List.replicate (nrows data) (Cell.num 0))]).map
        Prod.fst).contains "wind_max") = true := by
      have hm : "wind_max" ∈
          ((data ++ [("precip_mm", List.replicate (nrows data) (Cell.num 0))]).map Prod.fst) := by
        simp only [List.map_append, List.mem_append]
        exact Or.inl hw
      simpa using hm
    have heq : withMapFallback data =
        data ++ [("precip_mm", List.replicate (nrows data) (Cell.num 0))] := by
      unfold withMapFallback setColumn
      simp only []
      rw [hp1]
      simp only [Bool.false_eq_true, if_false]
      rw [hw2]
      simp only [if_true]
    refine ⟨fun _ => ?_, fun h => absurd hw h, fun h _ => absurd h hp,
      fun _ _ => heq, fun h _ => absurd h hp, fun _ h => absurd hw h, fun k hk => ?_⟩
    · rw [heq, lookup_append_of_not_mem data _ _ hp]
      simp [List.lookup]
    · rw [heq]
      exact lookup_append_of_mem data _ k hk
  · -- both optional columns absent
    have hp1 : ((data.map Prod.fst).contains "precip_mm") = false := by simpa using hp
    have hwp : "wind_max" ∉
        ((data ++ [("precip_mm", List.replicate (nrows data) (Cell.num 0))]).map Prod.fst) := by
      simp only [List.map_append, List.mem_append]
      rintro (hm | hm)
      · exact hw hm
      · simp at hm
    have hw2 : (((data ++ [("precip_mm", List.replicate (nrows data) (Cell.num 0))]).map
        Prod.fst).contains "wind_max") = false := by
      simpa using hwp
    have heq : withMapFallback data =
        data ++ [("precip_mm", List.replicate (nrows data) (Cell.num 0)),
                 ("wind_max", List.replicate (nrows data) (Cell.num 0))] := by
      unfold withMapFallback setColumn
      simp only []
      rw [hp1]
      simp only [Bool.false_eq_true, if_false]
      rw [hw2]
      simp only [Bool.false_eq_true, if_false]
      rw [nrows_append_fallback]
      simp
    refine ⟨fun _ => ?_, fun _ => ?_, fun h _ => absurd h hp,
      fun _ h => absurd h hw, fun h _ => absurd h hp, fun _ _ => heq, fun k hk => ?_⟩
    · rw [heq, lookup_append_of_not_mem data _ _ hp]
      rfl
    · rw [heq, lookup_append_of_not_mem data _ _ hw]
      simp [List.lookup]
    · rw [heq]
      exact lookup_append_of_mem data _ k hk

/-- Witness for C10: in the default run's table (precipitation columns
present, wind column absent) only the wind column is zero-filled and
the precipitation values survive unchanged; in the plain table (both
absent) the precipitation column is zero-filled too. -/
theorem map_fallback_zero_fills_witness :
    (withMapFallback defaultRunTable).lookup "wind_max" =
      some (List.replicate (nrows defaultRunTable) (Cell.num 0)) ∧
    (withMapFallback defaultRunTable).lookup "precip_mm" =
      defaultRunTable.lookup "precip_mm" ∧
    (withMapFallback plainTable).lookup "precip_mm" =
      some (List.replicate (nrows plainTable) (Cell.num 0)) :=
  ⟨(map_fallback_zero_fills defaultRunTable).2.1 (by decide),
   (map_fallback_zero_fills defaultRunTable).2.2.2.2.2.2 "precip_mm" (by decide),
   (map_fallback_zero_fills plainTable).1 (by decide)⟩

end SorlandetWeather
